import Mathlib

/-!
Verification of the voice-chat backend in `src/app.py`.

The file shallowly embeds the orchestration logic of the service: the
document retriever (`search_documents`), the speech synthesizer retry loop
(`tts_ssml_and_send_audio_if_needed`), the chat orchestrator
(`handle_chat_request`) and the two HTTP handlers (`chat`, `get_sts_token`).
External collaborators — the embedding model, the vector-search backend, the
chat-completion provider and the speech engine — are modelled as oracles
packaged in an `Env` record; Python exceptions are modelled with `Except`,
Python `None` with `Option`/`Json.null`.
-/

namespace VoiceChat

/-- One chat message, as the dicts `{"role": ..., "content": ...}` built in `app.py`. -/
structure ConversationTurn where
  role : String
  content : String
deriving DecidableEq, Repr

/-- The client-owned conversation history: an ordered list of turns. -/
abbrev ConversationHistory := List ConversationTurn

/-- A document as assembled by `search_documents` (all three fields defaulted). -/
structure RetrievedDocument where
  title : String
  content : String
  source : String
deriving DecidableEq, Repr

/-- A raw hit from the external search backend with
`select=["title", "content", "source"]`; each field may be missing, in which
case the `result.get` defaults in `search_documents` fire. -/
structure RawSearchResult where
  title : Option String
  content : Option String
  source : Option String
deriving DecidableEq, Repr

/-- `MAX_RETRIES = 3` from `app.py`. -/
def MAX_RETRIES : Nat := 3

/-- `RETRY_DELAY = 2` (seconds) from `app.py`. -/
def RETRY_DELAY : Nat := 2

/-- `VOICE_NAME_CHAT_COMPLETION = "en-US-AvaNeural"` from `app.py`. -/
def VOICE_NAME_CHAT_COMPLETION : String := "en-US-AvaNeural"

/-- The standard base64 alphabet. -/
def base64Table : List Char :=
  "ABCDEFGHIJKLMNOPQRSTUVWXYZabcdefghijklmnopqrstuvwxyz0123456789+/".data

/-- Character of the base64 alphabet at a 6-bit index. -/
def b64Char (n : Nat) : Char := base64Table.getD n 'A'

/-- Base64 of a byte list, three input bytes per four output characters,
padded with `=`. Each byte is already reduced mod 256 by `base64Encode`. -/
def base64Chunks : List Nat → String
  | [] => ""
  | [b0] =>
    String.mk [b64Char (b0 / 4), b64Char (b0 % 4 * 16)] ++ "=="
  | [b0, b1] =>
    String.mk [b64Char (b0 / 4), b64Char (b0 % 4 * 16 + b1 / 16),
      b64Char (b1 % 16 * 4)] ++ "="
  | b0 :: b1 :: b2 :: rest =>
    String.mk [b64Char (b0 / 4), b64Char (b0 % 4 * 16 + b1 / 16),
      b64Char (b1 % 16 * 4 + b2 / 64), b64Char (b2 % 64)] ++ base64Chunks rest

/-- Models `base64.b64encode(audio_data).decode("utf-8")` on a byte string. -/
def base64Encode (audio_data : List Nat) : String :=
  base64Chunks (audio_data.map (fun b => b % 256))

/-- Outcome of one engine call `speech_synthesizer.speak_ssml_async(ssml).get()`:
the result reason is `SynthesizingAudioCompleted`, `Canceled`, or some other
reason, or the call raises an exception. -/
inductive SynthesisOutcome where
  | completed (audio_data : List Nat)
  | canceled
  | otherReason
  | raised (msg : String)
deriving DecidableEq, Repr

/-- Observable side effect of the retry loop in
`tts_ssml_and_send_audio_if_needed`: an engine call (tagged with the value of
`attempt`) or a `time.sleep(RETRY_DELAY)`. -/
inductive TtsEvent where
  | engineCall (attempt : Nat)
  | sleep (seconds : Nat)
deriving DecidableEq, Repr

/-- The `for attempt in range(MAX_RETRIES)` loop of
`tts_ssml_and_send_audio_if_needed`, unrolled with fuel; at every call the
fuel equals `MAX_RETRIES - attempt`, so the guard `attempt < MAX_RETRIES`
mirrors `range(MAX_RETRIES)`. Returns the value returned by the Python
function together with the trace of engine calls and sleeps.
Branches, in source order: on `SynthesizingAudioCompleted` return the base64
audio; on `Canceled` break (no retry); on any other result reason fall
through to the next iteration without sleeping; on an exception sleep
`RETRY_DELAY` and retry unless this was the last attempt. -/
def ttsGo (engine : Nat → SynthesisOutcome) (attempt : Nat) :
    Nat → Option String × List TtsEvent
  | 0 => (none, [])
  | fuel + 1 =>
    if attempt < MAX_RETRIES then
      match engine attempt with
      | SynthesisOutcome.completed audio_data =>
        (some (base64Encode audio_data), [TtsEvent.engineCall attempt])
      | SynthesisOutcome.canceled =>
        (none, [TtsEvent.engineCall attempt])
      | SynthesisOutcome.otherReason =>
        let rest := ttsGo engine (attempt + 1) fuel
        (rest.1, TtsEvent.engineCall attempt :: rest.2)
      | SynthesisOutcome.raised _ =>
        if attempt < MAX_RETRIES - 1 then
          let rest := ttsGo engine (attempt + 1) fuel
          (rest.1, TtsEvent.engineCall attempt :: TtsEvent.sleep RETRY_DELAY :: rest.2)
        else
          (none, [TtsEvent.engineCall attempt])
    else (none, [])

/-- `tts_ssml_and_send_audio_if_needed(text_to_speak, voice_name)`.
`shouldStream` is the Python truthiness of the string constant
`SHOULD_STREAM_AUDIO_FROM_CHAT_COMPLETION`; if it is falsy the function
returns `None` before building the SSML. The SSML string built from
`text_to_speak` and `voice_name` is consumed only by the external engine,
which is modelled by the per-attempt oracle `engine`. The second component
is the trace of engine calls and sleeps. -/
def tts_ssml_and_send_audio_if_needed (shouldStream : Bool)
    (engine : Nat → SynthesisOutcome) (text_to_speak voice_name : String) :
    Option String × List TtsEvent :=
  if shouldStream = false then (none, [])
  else ttsGo engine 0 MAX_RETRIES

/-- The process environment of `app.py`: configuration plus the four external
service calls, each modelled as an oracle. `Except.error` models a raised
exception in the corresponding Python call. -/
structure Env where
  /-- `openai_client.embeddings.create(input=text, model=...)` reduced to the
  embedding vector it yields; vector components are opaque to the
  orchestration logic, so they are modelled as integers. -/
  embeddings_create : String → Except String (List Int)
  /-- Whether `search_client` is not `None` (all three search environment
  variables set and the client constructor succeeded). -/
  searchConfigured : Bool
  /-- `search_client.search(...)` on a vector query carrying an actual vector
  and `k_nearest_neighbors`, including iterating its paged results. -/
  search_backend : List Int → Nat → Except String (List RawSearchResult)
  /-- `openai_client.chat.completions.create(model=..., messages, max_tokens,
  temperature)` reduced to `choices[0].message.content`. -/
  completions_create : List ConversationTurn → Nat → Rat → Except String String
  /-- Python truthiness of the string constant
  `SHOULD_STREAM_AUDIO_FROM_CHAT_COMPLETION` (the shipped value `"true"` is
  truthy). -/
  shouldStreamAudio : Bool
  /-- The speech engine, per attempt index (see `ttsGo`). -/
  engine : Nat → SynthesisOutcome

/-- `generate_embeddings(text)`: wraps the external embedding call, returning
`None` on any exception. The `if not openai_client` guard is omitted: the
module raises at startup unless `openai_client` is initialised. -/
def generate_embeddings (env : Env) (text : String) : Option (List Int) :=
  match env.embeddings_create text with
  | Except.ok v => some v
  | Except.error _ => none

/-- The external vector-search call made by `search_documents`, on the
`VectorizedQuery` whose `vector` field is the value of
`generate_embeddings(query_text)`. The real service rejects a query whose
vector is missing (`None`), so the call errors there; with an actual vector
it defers to the backend oracle. -/
def searchCall (backend : List Int → Nat → Except String (List RawSearchResult))
    (vector : Option (List Int)) (k_nearest_neighbors : Nat) :
    Except String (List RawSearchResult) :=
  match vector with
  | none => Except.error "vector of the vectorized query must not be null"
  | some v => backend v k_nearest_neighbors

/-- `search_documents(query_text, top_n)`: returns `[]` when the search
client is unavailable; otherwise runs the vector query inside `try`, mapping
each result through the `result.get` defaults, and returns `[]` on any
exception. -/
def search_documents (env : Env) (query_text : String) (top_n : Nat) :
    List RetrievedDocument :=
  if env.searchConfigured = false then []
  else
    match searchCall env.search_backend (generate_embeddings env query_text) top_n with
    | Except.error _ => []
    | Except.ok results =>
      results.map (fun r =>
        { title := r.title.getD "N/A"
          content := r.content.getD ""
          source := r.source.getD "N/A" })

/-- Python character slicing `s[:n]`: the first `n` characters of `s`. -/
def strTake (s : String) (n : Nat) : String := String.mk (s.data.take n)

/-- One line of the context block appended per retrieved document in
`handle_chat_request`:
`f"- {title} (Source: {source}): {content[:200]}...\n"`. The dict built by
`search_documents` always carries all three keys, so the `doc.get` defaults
are dead. -/
def docLine (doc : RetrievedDocument) : String :=
  "- " ++ doc.title ++ " (Source: " ++ doc.source ++ "): "
    ++ strTake doc.content 200 ++ "...\n"

/-- The `search_results_text` computed by `handle_chat_request`: empty unless
the search client is available and `search_documents` returns documents, in
which case the header line plus one `docLine` per document, accumulated by
the `for doc in documents` loop. -/
def search_results_text (env : Env) (user_message : String) : String :=
  if env.searchConfigured then
    let documents := search_documents env user_message 3
    if documents.isEmpty then ""
    else documents.foldl (fun s doc => s ++ docLine doc) "\n\nRelevant documents:\n"
  else ""

/-- The fixed system instruction message of `handle_chat_request`. -/
def systemMessage : ConversationTurn :=
  { role := "system", content := "You are a helpful AI assistant." }

/-- The message list `handle_chat_request` sends to the completion provider:
`messages = [system]`, then `messages.extend(conversation_history)`, then
`messages.append({"role": "user", "content": user_message + search_results_text})`. -/
def providerMessages (env : Env) (user_message : String)
    (conversation_history : ConversationHistory) : List ConversationTurn :=
  let messages := [systemMessage]
  let messages := messages ++ conversation_history
  let messages := messages ++
    [{ role := "user", content := user_message ++ search_results_text env user_message }]
  messages

/-- The arguments `handle_chat_request` passes to
`openai_client.chat.completions.create`. -/
structure CompletionRequest where
  messages : List ConversationTurn
  max_tokens : Nat
  temperature : Rat
deriving DecidableEq

/-- The response dict of `handle_chat_request`: the success dict has no
`error` key (`error = none`), the failure dict has no `audio` key
(`audio = none`). -/
structure ChatResponse where
  text : String
  audio : Option String
  conversation_history : ConversationHistory
  error : Option String
deriving DecidableEq, Repr

/-- `handle_chat_request(user_message, conversation_history)`, paired with
the request it sends to the completion provider (the function always makes
exactly one `completions.create` call). On provider success the reply is
synthesized when the audio flag is truthy and the history gets the original
user message then the assistant reply appended; on provider failure the
error dict carries the unchanged input history. -/
def handle_chat_request (env : Env) (user_message : String)
    (conversation_history : ConversationHistory) :
    ChatResponse × CompletionRequest :=
  let messages := providerMessages env user_message conversation_history
  let req : CompletionRequest := { messages := messages, max_tokens := 800, temperature := 7/10 }
  match env.completions_create messages 800 (7/10) with
  | Except.ok assistant_response =>
    let audio_data_base64 : Option String :=
      if env.shouldStreamAudio then
        (tts_ssml_and_send_audio_if_needed env.shouldStreamAudio env.engine
          assistant_response VOICE_NAME_CHAT_COMPLETION).1
      else none
    ({ text := assistant_response
       audio := audio_data_base64
       conversation_history := conversation_history ++
         [{ role := "user", content := user_message },
          { role := "assistant", content := assistant_response }]
       error := none }, req)
  | Except.error e =>
    ({ text := "Sorry, I encountered an error."
       audio := none
       conversation_history := conversation_history
       error := some e }, req)

/-- JSON values, as delivered by `request.get_json()` and consumed by
`jsonify`. `Json.null` doubles as Python `None` (a body that parses to JSON
null yields `None` from `get_json`). -/
inductive Json where
  | null
  | bool (b : Bool)
  | num (n : Int)
  | str (s : String)
  | arr (elems : List Json)
  | obj (fields : List (String × Json))

/-- Key lookup in a JSON object field list (first occurrence). -/
def jsonLookup (fields : List (String × Json)) (k : String) : Option Json :=
  (fields.find? (fun p => p.1 == k)).map (fun p => p.2)

/-- Python truthiness of a JSON value: `None`, `False`, `0`, `""`, `[]` and
an empty dict are falsy. -/
def pyTruthy : Json → Bool
  | Json.null => false
  | Json.bool b => b
  | Json.num n => n != 0
  | Json.str s => s != ""
  | Json.arr elems => !elems.isEmpty
  | Json.obj fields => !fields.isEmpty

/-- Python `data.get(k)`: key lookup defaulting to `None` if `data` is a
dict, an `AttributeError` otherwise (in particular when `data` is `None`). -/
def pyGet (data : Json) (k : String) : Except String Json :=
  match data with
  | Json.obj fields => Except.ok ((jsonLookup fields k).getD Json.null)
  | _ => Except.error "AttributeError"

/-- Python `data.get(k, d)` with an explicit default. -/
def pyGetD (data : Json) (k : String) (d : Json) : Except String Json :=
  match data with
  | Json.obj fields => Except.ok ((jsonLookup fields k).getD d)
  | _ => Except.error "AttributeError"

/-- Decode one history element: the completion provider accepts exactly the
role/content dicts; anything else raises inside the provider call. -/
def decodeTurn : Json → Option ConversationTurn
  | Json.obj fields =>
    match jsonLookup fields "role", jsonLookup fields "content" with
    | some (Json.str r), some (Json.str c) => some { role := r, content := c }
    | _, _ => none
  | _ => none

/-- Decode a client-supplied conversation history. -/
def decodeHistory : Json → Option (List ConversationTurn)
  | Json.arr elems => elems.mapM decodeTurn
  | _ => none

/-- Encode one turn back to JSON, as `jsonify` renders the history dicts. -/
def encodeTurn (t : ConversationTurn) : Json :=
  Json.obj [("role", Json.str t.role), ("content", Json.str t.content)]

/-- `jsonify(response_data)` for the two dict shapes `handle_chat_request`
returns: the failure dict `{"error", "text", "conversation_history"}`, the
success dict `{"text", "audio", "conversation_history"}`. -/
def encodeChatResponse (r : ChatResponse) : Json :=
  match r.error with
  | some e =>
    Json.obj [("error", Json.str e), ("text", Json.str r.text),
      ("conversation_history", Json.arr (r.conversation_history.map encodeTurn))]
  | none =>
    Json.obj [("text", Json.str r.text),
      ("audio", match r.audio with | some s => Json.str s | none => Json.null),
      ("conversation_history", Json.arr (r.conversation_history.map encodeTurn))]

/-- The `try` block of the `/chat` route: read `message` and
`conversation_history` from the parsed body, answer 400 on a falsy message,
otherwise run `handle_chat_request` and serialise its response. A truthy
non-string message, or a history the provider cannot consume, raises inside
the handler (`user_message + search_results_text` is a `TypeError` for
non-strings) and is modelled as the error case. -/
def chat_try (env : Env) (data : Json) : Except String (Nat × Json) := do
  let user_message ← pyGet data "message"
  let conversation_history ← pyGetD data "conversation_history" (Json.arr [])
  if pyTruthy user_message = false then
    return (400, Json.obj [("error", Json.str "Empty message received")])
  else
    match user_message, decodeHistory conversation_history with
    | Json.str s, some hist =>
      return (200, encodeChatResponse (handle_chat_request env s hist).1)
    | _, _ => Except.error "TypeError"

/-- The 500 body produced by the `except` clause of the `/chat` route. -/
def internalErrorBody : Json :=
  Json.obj [("error", Json.str "An internal server error occurred"),
    ("text", Json.str "Sorry, something went wrong on the server.")]

/-- The `/chat` route handler: status code and JSON body for a parsed
request body `data` (`Json.null` when the body parses to JSON null). -/
def chat (env : Env) (data : Json) : Nat × Json :=
  match chat_try env data with
  | Except.ok r => r
  | Except.error _ => (500, internalErrorBody)

/-- Whether control in the `/chat` route reaches the
`handle_chat_request(...)` call: the body reads succeed and the message is
truthy. -/
def chat_invokes_handler (data : Json) : Bool :=
  match pyGet data "message" with
  | Except.error _ => false
  | Except.ok user_message =>
    match pyGetD data "conversation_history" (Json.arr []) with
    | Except.error _ => false
    | Except.ok _ => pyTruthy user_message

/-- Python truthiness of `os.environ.get(...)`: falsy when the variable is
unset (`None`) or set to the empty string. -/
def pyTruthyStrOpt : Option String → Bool
  | none => false
  | some s => s != ""

/-- `jsonify` of a Python string-or-None value. -/
def jsonOfStrOpt : Option String → Json
  | none => Json.null
  | some s => Json.str s

/-- The `/sts_token` route handler, as a function of the `SPEECH_KEY` and
`SPEECH_REGION` environment variables. -/
def get_sts_token (SPEECH_KEY SPEECH_REGION : Option String) : Nat × Json :=
  if pyTruthyStrOpt SPEECH_KEY = false || pyTruthyStrOpt SPEECH_REGION = false then
    (500, Json.obj [("error",
      Json.str "Speech key or region not configured on the server.")])
  else
    (200, Json.obj [("token", jsonOfStrOpt SPEECH_KEY),
      ("region", jsonOfStrOpt SPEECH_REGION)])

/-- Whether a trace event is an engine call. -/
def isEngineCall : TtsEvent → Bool
  | TtsEvent.engineCall _ => true
  | TtsEvent.sleep _ => false

/-- The loop makes at most `fuel` engine calls. -/
theorem ttsGo_calls_le (engine : Nat → SynthesisOutcome) (attempt fuel : Nat) :
    ((ttsGo engine attempt fuel).2.countP isEngineCall) ≤ fuel := by
  induction fuel generalizing attempt with
  | zero => simp [ttsGo]
  | succ f ih =>
    rw [ttsGo]
    by_cases h : attempt < MAX_RETRIES
    · simp only [h, if_true]
      cases he : engine attempt with
      | completed a => simp [List.countP, List.countP.go, isEngineCall]
      | canceled => simp [List.countP, List.countP.go, isEngineCall]
      | otherReason =>
        simp [List.countP_cons, isEngineCall]
        have := ih (attempt + 1)
        omega
      | raised m =>
        by_cases h2 : attempt < MAX_RETRIES - 1
        · simp [h2, List.countP_cons, isEngineCall]
          have := ih (attempt + 1)
          omega
        · simp [h2, List.countP, List.countP.go, isEngineCall]
    · simp [h]

/-- Every run of the loop either yields no audio or the base64 of the audio
of some completed engine call. -/
theorem ttsGo_result (engine : Nat → SynthesisOutcome) (attempt fuel : Nat) :
    (ttsGo engine attempt fuel).1 = none ∨
      ∃ i a, engine i = SynthesisOutcome.completed a ∧
        (ttsGo engine attempt fuel).1 = some (base64Encode a) := by
  induction fuel generalizing attempt with
  | zero => left; simp [ttsGo]
  | succ f ih =>
    rw [ttsGo]
    by_cases h : attempt < MAX_RETRIES
    · simp only [h, if_true]
      cases he : engine attempt with
      | completed a => right; exact ⟨attempt, a, he, rfl⟩
      | canceled => left; rfl
      | otherReason =>
        rcases ih (attempt + 1) with h1 | ⟨i, a, hia, h1⟩
        · left; simpa using h1
        · right; exact ⟨i, a, hia, by simpa using h1⟩
      | raised m =>
        by_cases h2 : attempt < MAX_RETRIES - 1
        · simp only [h2, if_true]
          rcases ih (attempt + 1) with h1 | ⟨i, a, hia, h1⟩
          · left; simpa using h1
          · right; exact ⟨i, a, hia, by simpa using h1⟩
        · simp [h2]
    · simp [h]

/-- `String.join` distributes over cons. -/
theorem join_cons (x : String) (xs : List String) :
    String.join (x :: xs) = x ++ String.join xs := by
  rw [String.join_eq, String.join_eq]
  apply String.ext
  simp

/-- The `s += line` loop accumulates the joined lines after the seed. -/
theorem foldl_docLine (l : List RetrievedDocument) (a : String) :
    l.foldl (fun s doc => s ++ docLine doc) a = a ++ String.join (l.map docLine) := by
  induction l generalizing a with
  | nil => simp [String.join]
  | cons d l ih =>
    rw [List.map_cons, List.foldl_cons, ih, join_cons, String.append_assoc]

/-- An engine whose every call reports cancellation. -/
def engineCancel : Nat → SynthesisOutcome := fun _ => SynthesisOutcome.canceled

/-- An engine that raises on the first two calls and completes on the third. -/
def engineFailTwiceThenOk : Nat → SynthesisOutcome := fun attempt =>
  if attempt = 2 then SynthesisOutcome.completed [72, 105]
  else SynthesisOutcome.raised "network error"

/-- Baseline concrete environment: search disabled, audio disabled,
provider replies `"hello"`. -/
def envBase : Env :=
  { embeddings_create := fun _ => Except.error "offline"
    searchConfigured := false
    search_backend := fun _ _ => Except.error "offline"
    completions_create := fun _ _ _ => Except.ok "hello"
    shouldStreamAudio := false
    engine := engineCancel }

/-- Environment whose completion provider raises. -/
def envProviderFails : Env :=
  { envBase with completions_create := fun _ _ _ => Except.error "boom" }

/-- Environment with search configured but a failing embedding call. -/
def envEmbedFails : Env :=
  { envBase with searchConfigured := true }

/-- Environment with search configured, embeddings fine, backend raising. -/
def envBackendFails : Env :=
  { envBase with
    searchConfigured := true
    embeddings_create := fun _ => Except.ok [1]
    search_backend := fun _ _ => Except.error "http 500" }

/-- A raw search hit with a 500-character content field. -/
def longDoc : RawSearchResult :=
  { title := some "Doc"
    content := some (String.mk (List.replicate 500 'x'))
    source := some "kb" }

/-- Environment with a working search stack returning `longDoc`. -/
def envSearchOk : Env :=
  { envBase with
    searchConfigured := true
    embeddings_create := fun _ => Except.ok [1]
    search_backend := fun _ _ => Except.ok [longDoc] }

/-- C2: the synthesizer makes at most `MAX_RETRIES` (3) attempts. With an
engine that raises twice and completes on the third call it returns the
base64 audio of the third call, having slept `RETRY_DELAY` exactly twice,
once before each retry; with an engine that signals cancellation on the
first call it makes exactly one engine call, does not sleep, and returns
null; with an engine failing on all three attempts it returns null with no
sleep after the last attempt. -/
theorem tts_retry_policy (engine : Nat → SynthesisOutcome)
    (text_to_speak voice_name : String) :
    (∀ m0 m1 a, engine 0 = SynthesisOutcome.raised m0 →
      engine 1 = SynthesisOutcome.raised m1 →
      engine 2 = SynthesisOutcome.completed a →
      tts_ssml_and_send_audio_if_needed true engine text_to_speak voice_name =
        (some (base64Encode a),
         [TtsEvent.engineCall 0, TtsEvent.sleep RETRY_DELAY, TtsEvent.engineCall 1,
          TtsEvent.sleep RETRY_DELAY, TtsEvent.engineCall 2])) ∧
    (engine 0 = SynthesisOutcome.canceled →
      tts_ssml_and_send_audio_if_needed true engine text_to_speak voice_name =
        (none, [TtsEvent.engineCall 0])) ∧
    (∀ m0 m1 m2, engine 0 = SynthesisOutcome.raised m0 →
      engine 1 = SynthesisOutcome.raised m1 →
      engine 2 = SynthesisOutcome.raised m2 →
      tts_ssml_and_send_audio_if_needed true engine text_to_speak voice_name =
        (none,
         [TtsEvent.engineCall 0, TtsEvent.sleep RETRY_DELAY, TtsEvent.engineCall 1,
          TtsEvent.sleep RETRY_DELAY, TtsEvent.engineCall 2])) ∧
    ((tts_ssml_and_send_audio_if_needed true engine text_to_speak
        voice_name).2.countP isEngineCall ≤ MAX_RETRIES) := by
  refine ⟨?_, ?_, ?_, ?_⟩
  · intro m0 m1 a h0 h1 h2
    simp [tts_ssml_and_send_audio_if_needed, ttsGo, MAX_RETRIES, RETRY_DELAY, h0, h1, h2]
  · intro h0
    simp [tts_ssml_and_send_audio_if_needed, ttsGo, MAX_RETRIES, h0]
  · intro m0 m1 m2 h0 h1 h2
    simp [tts_ssml_and_send_audio_if_needed, ttsGo, MAX_RETRIES, RETRY_DELAY, h0, h1, h2]
  · simp only [tts_ssml_and_send_audio_if_needed, if_neg]
    simpa using ttsGo_calls_le engine 0 MAX_RETRIES

/-- Witness for `tts_retry_policy` at concrete engines. -/
theorem tts_retry_policy_witness :
    engineFailTwiceThenOk 0 = SynthesisOutcome.raised "network error" ∧
    engineFailTwiceThenOk 1 = SynthesisOutcome.raised "network error" ∧
    engineFailTwiceThenOk 2 = SynthesisOutcome.completed [72, 105] ∧
    tts_ssml_and_send_audio_if_needed true engineFailTwiceThenOk "hello"
        VOICE_NAME_CHAT_COMPLETION =
      (some (base64Encode [72, 105]),
       [TtsEvent.engineCall 0, TtsEvent.sleep RETRY_DELAY, TtsEvent.engineCall 1,
        TtsEvent.sleep RETRY_DELAY, TtsEvent.engineCall 2]) ∧
    engineCancel 0 = SynthesisOutcome.canceled ∧
    tts_ssml_and_send_audio_if_needed true engineCancel "hello"
        VOICE_NAME_CHAT_COMPLETION = (none, [TtsEvent.engineCall 0]) :=
  ⟨rfl, rfl, rfl,
   (tts_retry_policy engineFailTwiceThenOk "hello" VOICE_NAME_CHAT_COMPLETION).1
     "network error" "network error" [72, 105] rfl rfl rfl,
   rfl,
   (tts_retry_policy engineCancel "hello" VOICE_NAME_CHAT_COMPLETION).2.1 rfl⟩

/-- C3: with the audio-streaming flag falsy, the synthesizer returns null
immediately and never calls the engine, and every chat turn's response has a
null audio field regardless of the engine. -/
theorem tts_skipped_when_audio_disabled :
    (∀ (engine : Nat → SynthesisOutcome) (text_to_speak voice_name : String),
      tts_ssml_and_send_audio_if_needed false engine text_to_speak voice_name =
        (none, [])) ∧
    (∀ (env : Env) (user_message : String) (hist : ConversationHistory),
      env.shouldStreamAudio = false →
      ((handle_chat_request env user_message hist).1).audio = none) := by
  refine ⟨fun engine t v => rfl, fun env user_message hist h => ?_⟩
  cases hc : env.completions_create (providerMessages env user_message hist) 800 (7/10) with
  | ok reply => simp [handle_chat_request, hc, h]
  | error e => simp [handle_chat_request, hc]

/-- Witness for `tts_skipped_when_audio_disabled`. -/
theorem tts_skipped_when_audio_disabled_witness :
    envBase.shouldStreamAudio = false ∧
    ((handle_chat_request envBase "hi" []).1).audio = none :=
  ⟨rfl, tts_skipped_when_audio_disabled.2 envBase "hi" [] rfl⟩

/-- C7: the synthesizer never raises: for every flag value and engine
behavior, the returned value is null or the base64 encoding of the audio of
some completed engine call. -/
theorem tts_total_outcome (shouldStream : Bool) (engine : Nat → SynthesisOutcome)
    (text_to_speak voice_name : String) :
    (tts_ssml_and_send_audio_if_needed shouldStream engine text_to_speak
        voice_name).1 = none ∨
      ∃ i a, engine i = SynthesisOutcome.completed a ∧
        (tts_ssml_and_send_audio_if_needed shouldStream engine text_to_speak
          voice_name).1 = some (base64Encode a) := by
  cases shouldStream with
  | false => left; rfl
  | true =>
    simpa [tts_ssml_and_send_audio_if_needed] using ttsGo_result engine 0 MAX_RETRIES

/-- C1: when the completion provider succeeds, the returned history is the
input history with exactly the user turn (original message) then the
assistant turn (reply text) appended; when the provider raises, the returned
history is the input history unchanged. -/
theorem handle_chat_request_history (env : Env) (user_message : String)
    (hist : ConversationHistory) :
    (∀ reply, env.completions_create (providerMessages env user_message hist)
        800 (7/10) = Except.ok reply →
      ((handle_chat_request env user_message hist).1).conversation_history =
        hist ++ [{ role := "user", content := user_message },
                 { role := "assistant", content := reply }]) ∧
    (∀ e, env.completions_create (providerMessages env user_message hist)
        800 (7/10) = Except.error e →
      ((handle_chat_request env user_message hist).1).conversation_history =
        hist) := by
  constructor
  · intro reply h
    simp [handle_chat_request, h]
  · intro e h
    simp [handle_chat_request, h]

/-- Witness for `handle_chat_request_history` on concrete environments. -/
theorem handle_chat_request_history_witness :
    envBase.completions_create (providerMessages envBase "hi" []) 800 (7/10) =
      Except.ok "hello" ∧
    ((handle_chat_request envBase "hi" []).1).conversation_history =
      [{ role := "user", content := "hi" },
       { role := "assistant", content := "hello" }] ∧
    envProviderFails.completions_create
        (providerMessages envProviderFails "hi" []) 800 (7/10) =
      Except.error "boom" ∧
    ((handle_chat_request envProviderFails "hi" []).1).conversation_history =
      [] :=
  ⟨rfl,
   by simpa using (handle_chat_request_history envBase "hi" []).1 "hello" rfl,
   rfl,
   (handle_chat_request_history envProviderFails "hi" []).2 "boom" rfl⟩

/-- C4: `search_documents` never fails its caller and degrades to the empty
list: when no search backend is configured, when embedding generation yields
no vector, and when the backend query raises. -/
theorem search_documents_degrades_to_empty (env : Env) (query_text : String)
    (top_n : Nat) :
    (env.searchConfigured = false → search_documents env query_text top_n = []) ∧
    (generate_embeddings env query_text = none →
      search_documents env query_text top_n = []) ∧
    (∀ v e, generate_embeddings env query_text = some v →
      env.search_backend v top_n = Except.error e →
      search_documents env query_text top_n = []) := by
  refine ⟨fun h => by simp [search_documents, h], fun h => ?_, fun v e hv he => ?_⟩
  · by_cases hc : env.searchConfigured
    · simp [search_documents, hc, searchCall, h]
    · simp [search_documents, hc]
  · by_cases hc : env.searchConfigured
    · simp [search_documents, hc, searchCall, hv, he]
    · simp [search_documents, hc]

/-- Witness for `search_documents_degrades_to_empty` on three concrete
environments: search unconfigured, embedding failure, backend failure. -/
theorem search_documents_degrades_to_empty_witness :
    envBase.searchConfigured = false ∧
    search_documents envBase "q" 3 = [] ∧
    generate_embeddings envEmbedFails "q" = none ∧
    search_documents envEmbedFails "q" 3 = [] ∧
    generate_embeddings envBackendFails "q" = some [1] ∧
    envBackendFails.search_backend [1] 3 = Except.error "http 500" ∧
    search_documents envBackendFails "q" 3 = [] :=
  ⟨rfl, (search_documents_degrades_to_empty envBase "q" 3).1 rfl,
   rfl, (search_documents_degrades_to_empty envEmbedFails "q" 3).2.1 rfl,
   rfl, rfl,
   (search_documents_degrades_to_empty envBackendFails "q" 3).2.2 [1] "http 500" rfl rfl⟩

/-- The context block is empty when search is unconfigured or returns no
documents. -/
theorem search_results_text_empty (env : Env) (user_message : String)
    (h : env.searchConfigured = false ∨ search_documents env user_message 3 = []) :
    search_results_text env user_message = "" := by
  rcases h with h | h
  · simp [search_results_text, h]
  · by_cases hc : env.searchConfigured
    · simp [search_results_text, hc, h]
    · simp [search_results_text, hc]

/-- C5: the provider request of every turn consists of exactly the fixed
system message, the input history verbatim, and one user message whose
content is the user message with the context block appended, with a token
cap of 800 and temperature 0.7; when search is unconfigured or returns no
documents, the user content is the user message exactly. -/
theorem provider_call_exact (env : Env) (user_message : String)
    (hist : ConversationHistory) :
    ((handle_chat_request env user_message hist).2 =
      { messages := [systemMessage] ++ hist ++
          [{ role := "user",
             content := user_message ++ search_results_text env user_message }]
        max_tokens := 800
        temperature := 7/10 }) ∧
    (env.searchConfigured = false ∨ search_documents env user_message 3 = [] →
      (handle_chat_request env user_message hist).2 =
        { messages := [systemMessage] ++ hist ++
            [{ role := "user", content := user_message }]
          max_tokens := 800
          temperature := 7/10 }) := by
  have part1 : (handle_chat_request env user_message hist).2 =
      { messages := [systemMessage] ++ hist ++
          [{ role := "user",
             content := user_message ++ search_results_text env user_message }]
        max_tokens := 800
        temperature := 7/10 } := by
    cases hc : env.completions_create (providerMessages env user_message hist)
        800 (7/10) with
    | ok reply =>
      simp only [handle_chat_request]
      rw [hc]
      simp [providerMessages]
    | error e =>
      simp only [handle_chat_request]
      rw [hc]
      simp [providerMessages]
  refine ⟨part1, fun h => ?_⟩
  rw [part1, search_results_text_empty env user_message h, String.append_empty]

/-- Witness for `provider_call_exact` on a concrete environment with search
unavailable. -/
theorem provider_call_exact_witness :
    envBase.searchConfigured = false ∧
    (handle_chat_request envBase "hi" []).2 =
      { messages := [systemMessage] ++ [] ++ [{ role := "user", content := "hi" }]
        max_tokens := 800
        temperature := 7/10 } :=
  ⟨rfl, (provider_call_exact envBase "hi" []).2 (Or.inl rfl)⟩

/-- C6: with search available and returning documents, the context block is
the header followed by one line per document in order, the line for a
document being its title, source, and the first 200 characters of its
content followed by the truncation marker; a document with 500-character
content contributes exactly its first 200 characters, marker appended. -/
theorem context_block_lines (env : Env) (user_message : String) :
    (env.searchConfigured = true → search_documents env user_message 3 ≠ [] →
      search_results_text env user_message =
        "\n\nRelevant documents:\n" ++
          String.join ((search_documents env user_message 3).map docLine)) ∧
    (∀ title content source : String, content.data.length = 500 →
      docLine { title := title, content := content, source := source } =
        "- " ++ title ++ " (Source: " ++ source ++ "): " ++
          String.mk (content.data.take 200) ++ "...\n" ∧
      (String.mk (content.data.take 200)).data.length = 200) := by
  constructor
  · intro hc hne
    have hempty : (search_documents env user_message 3).isEmpty = false := by
      cases hd : search_documents env user_message 3 with
      | nil => exact absurd hd hne
      | cons a l => rfl
    simp only [search_results_text, hc, if_true, hempty, Bool.false_eq_true,
      if_false]
    exact foldl_docLine _ _
  · intro title content source h
    refine ⟨rfl, ?_⟩
    simp [List.length_take, h]

/-- Witness for `context_block_lines` on an environment returning one
document whose content has 500 characters. -/
theorem context_block_lines_witness :
    envSearchOk.searchConfigured = true ∧
    search_documents envSearchOk "q" 3 ≠ [] ∧
    search_results_text envSearchOk "q" =
      "\n\nRelevant documents:\n" ++
        String.join ((search_documents envSearchOk "q" 3).map docLine) ∧
    (String.mk (List.replicate 500 'x')).data.length = 500 ∧
    docLine { title := "Doc", content := String.mk (List.replicate 500 'x'),
              source := "kb" } =
      "- " ++ "Doc" ++ " (Source: " ++ "kb" ++ "): " ++
        String.mk ((String.mk (List.replicate 500 'x')).data.take 200) ++ "...\n" ∧
    (String.mk ((String.mk (List.replicate 500 'x')).data.take 200)).data.length
      = 200 :=
  ⟨rfl, by decide,
   (context_block_lines envSearchOk "q").1 rfl (by decide),
   List.length_replicate 500 'x',
   ((context_block_lines envSearchOk "q").2 "Doc"
     (String.mk (List.replicate 500 'x')) "kb" (List.length_replicate 500 'x')).1,
   ((context_block_lines envSearchOk "q").2 "Doc"
     (String.mk (List.replicate 500 'x')) "kb" (List.length_replicate 500 'x')).2⟩

/-- C8: a `/chat` request whose JSON object body has no `message` field, or
an empty-string one, gets status 400 with the `Empty message received` error
body, and the chat handler is not invoked. -/
theorem chat_empty_message_400 (env : Env) (fields : List (String × Json))
    (h : jsonLookup fields "message" = none ∨
      jsonLookup fields "message" = some (Json.str "")) :
    chat env (Json.obj fields) =
      (400, Json.obj [("error", Json.str "Empty message received")]) ∧
    chat_invokes_handler (Json.obj fields) = false := by
  have hm : pyTruthy ((jsonLookup fields "message").getD Json.null) = false := by
    rcases h with h | h <;> simp [h, pyTruthy]
  constructor
  · simp [chat, chat_try, pyGet, pyGetD, hm, Bind.bind, Except.bind, Pure.pure,
      Except.pure]
  · simp [chat_invokes_handler, pyGet, pyGetD, hm]

/-- Witness for `chat_empty_message_400` at an empty-string message and at
an absent one. -/
theorem chat_empty_message_400_witness :
    jsonLookup [("message", Json.str "")] "message" = some (Json.str "") ∧
    chat envBase (Json.obj [("message", Json.str "")]) =
      (400, Json.obj [("error", Json.str "Empty message received")]) ∧
    jsonLookup [] "message" = none ∧
    chat_invokes_handler (Json.obj []) = false :=
  ⟨rfl,
   (chat_empty_message_400 envBase [("message", Json.str "")] (Or.inr rfl)).1,
   rfl,
   (chat_empty_message_400 envBase [] (Or.inl rfl)).2⟩

/-- C9: `/sts_token` answers 200 with the configured key and region
populated when both are set non-empty, and 500 with the error body when
either variable is unset. -/
theorem sts_token_by_configuration :
    (∀ k r : String, k ≠ "" → r ≠ "" →
      get_sts_token (some k) (some r) =
        (200, Json.obj [("token", Json.str k), ("region", Json.str r)])) ∧
    (∀ key region : Option String, key = none ∨ region = none →
      get_sts_token key region =
        (500, Json.obj [("error",
          Json.str "Speech key or region not configured on the server.")])) := by
  constructor
  · intro k r hk hr
    simp [get_sts_token, pyTruthyStrOpt, jsonOfStrOpt, hk, hr]
  · intro key region h
    rcases h with h | h <;> simp [get_sts_token, pyTruthyStrOpt, h]

/-- Witness for `sts_token_by_configuration` at concrete credentials. -/
theorem sts_token_by_configuration_witness :
    ("sk" : String) ≠ "" ∧ ("westus" : String) ≠ "" ∧
    get_sts_token (some "sk") (some "westus") =
      (200, Json.obj [("token", Json.str "sk"), ("region", Json.str "westus")]) ∧
    get_sts_token none (some "westus") =
      (500, Json.obj [("error",
        Json.str "Speech key or region not configured on the server.")]) :=
  ⟨by decide, by decide,
   sts_token_by_configuration.1 "sk" "westus" (by decide) (by decide),
   sts_token_by_configuration.2 none (some "westus") (Or.inl rfl)⟩

/-- C10: a `/chat` body that parses to JSON null (Python `None`) raises
`AttributeError` on `data.get` inside the route's `try`, so the route
answers 500 with the generic internal-error body rather than the 400
empty-message response. -/
theorem chat_null_body_500 (env : Env) :
    chat env Json.null = (500, internalErrorBody) ∧
    chat_invokes_handler Json.null = false := by
  constructor
  · simp [chat, chat_try, pyGet, Bind.bind, Except.bind]
  · simp [chat_invokes_handler, pyGet]

end VoiceChat
